import Mathlib

/-!
Verification of the rotation coordination and record-writing subsystem of
pgauditlogtofile (src/logtofile.c), shallowly embedded in Lean.

Modelling conventions:
- machine integers (pg_time_t, int, long) are modelled as Int; C integer
  `%` truncates toward zero, which is `Int.tmod`;
- C strings are modelled as `String` (filenames, GUC values) or `List Char`
  (message/record bytes); a C string has no interior NUL byte;
- `pg_strftime`/`pg_localtime` rendering of a pattern at a point in time is
  abstracted as an opaque function argument `strftime`; the timezone offset
  `tm_gmtoff` of local time is passed explicitly;
- I/O outcomes (fopen success, fwrite return count) are inputs of the model;
- the per-worker globals `file_handler`, `filename_in_use`, `filename`,
  `next_rotation_time` and the shared `force_rotation` flag form `AuditState`.
-/

/-- `SECS_PER_MINUTE` from the PostgreSQL headers. -/
def SECS_PER_MINUTE : Int := 60

/-- `MINS_PER_HOUR` from the PostgreSQL headers. -/
def MINS_PER_HOUR : Int := 60

/-- `HOURS_PER_DAY` from the PostgreSQL headers. -/
def HOURS_PER_DAY : Int := 24

/-- `pgauditlogtofile_calculate_next_rotation_time` (src/logtofile.c:393-407).
`now` is `time(NULL)`, `gmtoff` is `pg_localtime(&now, log_timezone)->tm_gmtoff`
and `rotationAge` is the GUC `pgaudit.log_rotation_age` in minutes.  The C
code shifts into local time, floors to the rotation boundary with the
truncating integer `%` (`Int.tmod`), adds one interval and shifts back. -/
def pgauditlogtofile_calculate_next_rotation_time
    (now gmtoff rotationAge : Int) : Int :=
  let rotinterval := rotationAge * SECS_PER_MINUTE
  let n1 := now + gmtoff
  let n2 := n1 - Int.tmod n1 rotinterval
  let n3 := n2 + rotinterval
  n3 - gmtoff

/-- The registration data of an integer GUC in `DefineCustomIntVariable`. -/
structure IntGucDef where
  defaultVal : Int
  minVal : Int
  maxVal : Int
deriving DecidableEq

/-- Registration of `pgaudit.log_rotation_age` in `_PG_init`
(src/logtofile.c:194-200): default `HOURS_PER_DAY * MINS_PER_HOUR`, minimum
`0`, maximum `INT_MAX / SECS_PER_MINUTE` (C integer division). -/
def guc_pgaudit_log_rotation_age_def : IntGucDef :=
  { defaultVal := HOURS_PER_DAY * MINS_PER_HOUR
    minVal := 0
    maxVal := 2147483647 / 60 }

/-- Whether a value is inside the declared range of an integer GUC, which is
what the GUC machinery enforces when the setting is assigned. -/
def gucIntAccepts (d : IntGucDef) (v : Int) : Bool :=
  decide (d.minVal ≤ v) && decide (v ≤ d.maxVal)

/-- `pgauditlogtofile_calculate_filename` (src/logtofile.c:457-471).
`strftime` abstracts `pg_strftime` composed with `pg_localtime`: it renders a
pattern at a point in time.  The C function renders the pattern at
`current_rotation_time`, one rotation interval before `next_rotation_time`,
and prefixes the directory and a slash. -/
def pgauditlogtofile_calculate_filename (strftime : String → Int → String)
    (directory pattern : String) (rotationAge next_rotation_time : Int) :
    String :=
  let current_rotation_time :=
    next_rotation_time - rotationAge * SECS_PER_MINUTE
  directory ++ "/" ++ strftime pattern current_rotation_time

/-- The per-worker mutable globals of src/logtofile.c (lines 83-92):
the shared `force_rotation` flag, the cached `next_rotation_time`, the file
handle (modelled as open or not), the name recorded at open time
(`filename_in_use`) and the freshly derived target name (`filename`). -/
structure AuditState where
  force_rotation : Bool
  next_rotation_time : Int
  file_handler : Bool
  filename_in_use : String
  filename : String
deriving DecidableEq

/-- Effect of `pgauditlogtofile_request_rotation` (src/logtofile.c:132-142) on
the state: sets the shared flag under the lock, guarded by an unlocked read
so that setting an already-set flag is a no-op. -/
def pgauditlogtofile_request_rotation (s : AuditState) : AuditState :=
  if s.force_rotation then s else { s with force_rotation := true }

/-- `pgauditlogtofile_needs_rotate_file` (src/logtofile.c:365-388): returns
the rotation decision and the updated worker state.  Branch (a) consumes the
shared force flag; branch (b) fires when `time(NULL) >= next_rotation_time`
and recomputes the next rotation time; branch (c) compares the recorded open
name with the freshly derived target name. -/
def pgauditlogtofile_needs_rotate_file (now gmtoff rotationAge : Int)
    (s : AuditState) : Bool × AuditState :=
  if s.force_rotation then
    (true, { s with force_rotation := false })
  else if s.next_rotation_time ≤ now then
    (true, { s with next_rotation_time :=
      pgauditlogtofile_calculate_next_rotation_time now gmtoff rotationAge })
  else if s.filename_in_use ≠ s.filename then
    (true, s)
  else
    (false, s)

/-- `pgauditlogtofile_close_file` (src/logtofile.c:326-331): closes the handle
if open; `filename_in_use` is not touched. -/
def pgauditlogtofile_close_file (s : AuditState) : AuditState :=
  if s.file_handler then { s with file_handler := false } else s

/-- `pgauditlogtofile_is_open_file` (src/logtofile.c:336-341). -/
def pgauditlogtofile_is_open_file (s : AuditState) : Bool :=
  s.file_handler

/-- `pgauditlogtofile_open_file` (src/logtofile.c:412-452).  `fopen_ok`
abstracts the success of `fopen(filename, "a")`; directory creation, umask
and buffering do not affect the modelled state.  Only after fopen succeeds is
`filename_in_use` updated (`strcpy(filename_in_use, filename)`); on failure a
warning is reported, the handle is NULL and `filename_in_use` is left as it
was. -/
def pgauditlogtofile_open_file (fopen_ok : Bool) (s : AuditState) :
    Bool × AuditState :=
  if fopen_ok then
    (true, { s with file_handler := true, filename_in_use := s.filename })
  else
    (false, { s with file_handler := false })

/-- The state update of `pgauditlogtofile_calculate_filename`: the derived
path is written into the global `filename`. -/
def calculate_filename_state (strftime : String → Int → String)
    (dir pat : String) (rotationAge : Int) (s : AuditState) : AuditState :=
  { s with filename := (pgauditlogtofile_calculate_filename strftime dir pat
      rotationAge s.next_rotation_time) }

/-- The values of the GUC settings registered in `_PG_init`
(src/logtofile.c:180-223).  `none` models a NULL string pointer. -/
structure GucConfig where
  log_directory : Option String
  log_filename : Option String
  log_rotation_age : Int
  log_connections : Bool
  log_disconnections : Bool

/-- `pgauditlogtofile_is_enabled` (src/logtofile.c:293-301).  `shm_present`
models `pgaudit_log_shm != NULL`. -/
def pgauditlogtofile_is_enabled (shm_present : Bool) (guc : GucConfig) :
    Bool :=
  match guc.log_directory, guc.log_filename with
  | some d, some f => shm_present && !(d.length == 0) && !(f.length == 0)
  | _, _ => false

/-- `pg_tolower` on a byte: only ASCII capital letters are folded. -/
def pg_tolower (c : Char) : Char :=
  if 'A' ≤ c ∧ c ≤ 'Z' then Char.ofNat (c.toNat + 32) else c

/-- `pg_strncasecmp(s1, s2, n) == 0`: the first `n` bytes agree up to ASCII
case, the comparison stopping at the terminating NUL of either string (a
modelled string past its end reads as NUL, which never equals a real
character). -/
def pg_strncasecmp_eq : List Char → List Char → Nat → Bool
  | _, _, 0 => true
  | [], [], _ + 1 => true
  | [], _ :: _, _ + 1 => false
  | _ :: _, [], _ + 1 => false
  | c :: cs, d :: ds, n + 1 =>
    pg_tolower c == pg_tolower d && pg_strncasecmp_eq cs ds n

/-- `PGAUDIT_PREFIX_LINE` (src/logtofile.c:35). -/
def PGAUDIT_PREFIX_LINE : List Char := "AUDIT: ".data

/-- `PGAUDIT_PREFIX_LINE_LENGTH` (src/logtofile.c:36). -/
def PGAUDIT_PREFIX_LINE_LENGTH : Nat := 7

/-- `pgAuditLogToFileConnPrefixes` with `pgAuditLogToFileConnPrefixesLen`
(src/logtofile.c:50-64). -/
def pgAuditLogToFileConnPrefixes : List (List Char × Nat) :=
  [("connection authenticated: identity=".data, 35),
   ("connection authorized: user=".data, 28),
   ("connection received: host=".data, 26),
   ("password authentication failed for user".data, 39),
   ("replication connection authorized: user=".data, 40)]

/-- `pgAuditLogToFileDisconnPrefixes` with `pgAuditLogToFileDisconnPrefixesLen`
(src/logtofile.c:66-73). -/
def pgAuditLogToFileDisconnPrefixes : List (List Char × Nat) :=
  [("disconnection: session time:".data, 28)]

/-- `pgauditlogtofile_is_prefixed` (src/logtofile.c:346-360): scans the
connection prefixes when `pgaudit.log_connections` is on and, if still not
found, the disconnection prefixes when `pgaudit.log_disconnections` is on. -/
def pgauditlogtofile_is_prefixed (guc : GucConfig) (msg : List Char) : Bool :=
  (guc.log_connections &&
    pgAuditLogToFileConnPrefixes.any
      (fun p => pg_strncasecmp_eq msg p.1 p.2)) ||
  (guc.log_disconnections &&
    pgAuditLogToFileDisconnPrefixes.any
      (fun p => pg_strncasecmp_eq msg p.1 p.2))

/-- The fields of `MyProcPort` read by the formatter; `none` models a NULL
pointer.  `remote_port` folds NULL and the empty string together, matching
the guard at line 549 that skips a NULL or empty port string. -/
structure PgPort where
  user_name : Option (List Char)
  database_name : Option (List Char)
  remote_host : Option (List Char)
  remote_port : List Char

/-- The ambient process state read by `pgauditlogtofile_create_audit_line`:
the static formatted timestamps, the static pid and line counter (after the
reset-and-increment logic at lines 518-525), `MyProcPort`, `MyStartTime`, the
ps display, `MyProc` virtual-transaction identity, the current transaction
id, `debug_query_string`, the error verbosity and `application_name`.
`unpack_sql_state` abstracts the external renderer of an SQL state code. -/
structure PgContext where
  port : Option PgPort
  formatted_log_time : List Char
  formatted_start_time : List Char
  log_my_pid : Nat
  my_start_time : Nat
  log_line_number : Nat
  ps_display : List Char
  vxid : Option (Nat × Nat)
  top_transaction_id : Nat
  debug_query_string : Option (List Char)
  log_error_verbosity_verbose : Bool
  application_name : Option (List Char)
  unpack_sql_state : Int → List Char

/-- The fields of `ErrorData` read by this extension; `none` models a NULL
pointer. -/
structure ErrorData where
  output_to_server : Bool
  message : List Char
  sqlerrcode : Int
  detail : Option (List Char)
  detail_log : Option (List Char)
  hint : Option (List Char)
  internalquery : Option (List Char)
  internalpos : Int
  context : Option (List Char)
  hide_stmt : Bool
  cursorpos : Int
  funcname : Option (List Char)
  filename : Option (List Char)
  lineno : Int
deriving DecidableEq

/-- A NULL-able string appended with `appendStringInfoString`: NULL renders
as nothing. -/
def optChars : Option (List Char) → List Char
  | some s => s
  | none => []

/-- `appendStringInfo(buf, "%d", i)` / `"%ld"` / `"%u"` rendering. -/
def intChars (i : Int) : List Char := (toString i).data

/-- Decimal rendering of a non-negative counter or id. -/
def natChars (n : Nat) : List Char := (toString n).data

/-- `%x` / `%lx` lowercase hexadecimal rendering of a non-negative value. -/
def hexChars (n : Nat) : List Char := Nat.toDigits 16 n

/-- Field 1 (line 528-529): timestamp with milliseconds. -/
def fieldLogTime (ctx : PgContext) : List Char := ctx.formatted_log_time

/-- Field 2 (line 533-534): username, when `MyProcPort` and its `user_name`
are present. -/
def fieldUserName (ctx : PgContext) : List Char :=
  match ctx.port with
  | some p => optChars p.user_name
  | none => []

/-- Field 3 (line 538-539): database name. -/
def fieldDatabaseName (ctx : PgContext) : List Char :=
  match ctx.port with
  | some p => optChars p.database_name
  | none => []

/-- Field 4 (line 543): process id, printed from the static `log_my_pid`. -/
def fieldPid (ctx : PgContext) : List Char := natChars ctx.log_my_pid

/-- Field 5 (lines 547-553): remote host, and `:port` when the port string is
present and non-empty. -/
def fieldRemoteHostPort (ctx : PgContext) : List Char :=
  match ctx.port with
  | some p =>
    match p.remote_host with
    | some h => if p.remote_port ≠ [] then h ++ ':' :: p.remote_port else h
    | none => []
  | none => []

/-- Field 6 (line 557): session id, `hex(MyStartTime).hex(pid)`. -/
def fieldSessionId (ctx : PgContext) : List Char :=
  hexChars ctx.my_start_time ++ '.' :: hexChars ctx.log_my_pid

/-- Field 7 (line 561): per-worker line number. -/
def fieldLineNumber (ctx : PgContext) : List Char :=
  natChars ctx.log_line_number

/-- Field 8 (lines 565-577): ps display, only when `MyProcPort` is present. -/
def fieldPsDisplay (ctx : PgContext) : List Char :=
  match ctx.port with
  | some _ => ctx.ps_display
  | none => []

/-- Field 9 (line 581): session start timestamp. -/
def fieldStartTime (ctx : PgContext) : List Char := ctx.formatted_start_time

/-- Field 10 (lines 586-587): virtual transaction id `backendId/lxid`, when
`MyProc` is present with a valid backend id. -/
def fieldVxid (ctx : PgContext) : List Char :=
  match ctx.vxid with
  | some bl => natChars bl.1 ++ '/' :: natChars bl.2
  | none => []

/-- Field 11 (line 591): transaction id from `GetTopTransactionIdIfAny`. -/
def fieldXid (ctx : PgContext) : List Char :=
  natChars ctx.top_transaction_id

/-- Field 12 (line 595): SQL state code via `unpack_sql_state`. -/
def fieldSqlState (ctx : PgContext) (e : ErrorData) : List Char :=
  ctx.unpack_sql_state e.sqlerrcode

/-- Field 13 (line 599): the message with the first `exclude_nchars`
characters stripped (`edata->message + exclude_nchars`). -/
def fieldMessage (e : ErrorData) (exclude_nchars : Nat) : List Char :=
  e.message.drop exclude_nchars

/-- Field 14 (lines 603-606): `detail_log`, else `detail`. -/
def fieldDetail (e : ErrorData) : List Char :=
  match e.detail_log with
  | some d => d
  | none => optChars e.detail

/-- Field 15 (lines 610-611): hint. -/
def fieldHint (e : ErrorData) : List Char := optChars e.hint

/-- Field 16 (lines 615-616): internal query. -/
def fieldInternalQuery (e : ErrorData) : List Char :=
  optChars e.internalquery

/-- Field 17 (lines 620-621): internal position, only when positive and the
internal query was printed. -/
def fieldInternalPos (e : ErrorData) : List Char :=
  if 0 < e.internalpos ∧ e.internalquery ≠ none then intChars e.internalpos
  else []

/-- Field 18 (lines 625-626): error context. -/
def fieldContext (e : ErrorData) : List Char := optChars e.context

/-- `print_stmt` (lines 630-631): the user query is reported when
`debug_query_string` is present and the event does not hide the statement. -/
def print_stmt (ctx : PgContext) (e : ErrorData) : Bool :=
  ctx.debug_query_string.isSome && !e.hide_stmt

/-- Field 19 (lines 632-633): the user query, when reported. -/
def fieldStatement (ctx : PgContext) (e : ErrorData) : List Char :=
  if print_stmt ctx e then optChars ctx.debug_query_string else []

/-- Field 20 (lines 635-636): cursor position, when the query was printed and
the position is positive. -/
def fieldCursorPos (ctx : PgContext) (e : ErrorData) : List Char :=
  if print_stmt ctx e = true ∧ 0 < e.cursorpos then intChars e.cursorpos
  else []

/-- Field 21 (lines 640-652): source location, only under verbose error
verbosity: `"%s, %s:%d"` with funcname and filename, or `"%s:%d"` with
filename alone, or nothing. -/
def fieldLocation (ctx : PgContext) (e : ErrorData) : List Char :=
  if ctx.log_error_verbosity_verbose then
    match e.funcname, e.filename with
    | some fn, some f => fn ++ ',' :: ' ' :: f ++ ':' :: intChars e.lineno
    | none, some f => f ++ ':' :: intChars e.lineno
    | _, _ => []
  else []

/-- Field 22 (lines 656-657): application name. -/
def fieldAppName (ctx : PgContext) : List Char :=
  optChars ctx.application_name

/-- The 22 fields of one audit record, in the order the formatter appends
them. -/
def auditLineFields (ctx : PgContext) (e : ErrorData)
    (exclude_nchars : Nat) : List (List Char) :=
  [fieldLogTime ctx, fieldUserName ctx, fieldDatabaseName ctx, fieldPid ctx,
   fieldRemoteHostPort ctx, fieldSessionId ctx, fieldLineNumber ctx,
   fieldPsDisplay ctx, fieldStartTime ctx, fieldVxid ctx, fieldXid ctx,
   fieldSqlState ctx e, fieldMessage e exclude_nchars, fieldDetail e,
   fieldHint e, fieldInternalQuery e, fieldInternalPos e, fieldContext e,
   fieldStatement ctx e, fieldCursorPos ctx e, fieldLocation ctx e,
   fieldAppName ctx]

/-- Interleaves the delimiter comma between consecutive fields, exactly as
the formatter appends `field, ',', field, ',', ...`. -/
def joinComma : List (List Char) → List Char
  | [] => []
  | [f] => f
  | f :: fs => f ++ ',' :: joinComma fs

/-- `pgauditlogtofile_create_audit_line` (src/logtofile.c:504-660): one
comma-delimited, newline-terminated record.  The static counter state
(`log_my_pid`, `log_line_number`, the formatted timestamps) is supplied
through `ctx`, holding the values in effect after the reset-and-increment
logic at the top of the C function. -/
def pgauditlogtofile_create_audit_line (ctx : PgContext) (e : ErrorData)
    (exclude_nchars : Nat) : List Char :=
  joinComma (auditLineFields ctx e exclude_nchars) ++ ['\n']

/-- The outcomes of the operating-system calls made during one write attempt:
the clock, the timezone offset of local time at that instant, whether
`fopen` succeeds, and the count `fwrite` returns. -/
structure IoEnv where
  now : Int
  gmtoff : Int
  fopen_ok : Bool
  fwrite_rc : Nat

/-- `pgauditlogtofile_write_audit` (src/logtofile.c:476-499): builds the
record line, seeks to the end, writes it and flushes; returns whether fwrite
reported exactly `buf.len` bytes.  The file handle stays open either way.
The result carries the buffer handed to fwrite; the state is untouched. -/
def pgauditlogtofile_write_audit (ctx : PgContext) (e : ErrorData)
    (exclude_nchars : Nat) (fwrite_rc : Nat) (s : AuditState) :
    (Bool × List Char) × AuditState :=
  let buf := pgauditlogtofile_create_audit_line ctx e exclude_nchars
  ((fwrite_rc == buf.length, buf), s)

/-- `pgauditlogtofile_record_audit` (src/logtofile.c:306-321): rotation check
(closing the session and recomputing the target name when it fires), lazy
open, then write.  Returns the overall success, the buffer handed to fwrite
when a write happened, and the updated state. -/
def pgauditlogtofile_record_audit (env : IoEnv)
    (strftime : String → Int → String) (dir pat : String) (rotationAge : Int)
    (ctx : PgContext) (e : ErrorData) (exclude_nchars : Nat)
    (s : AuditState) : Bool × Option (List Char) × AuditState :=
  let rot := pgauditlogtofile_needs_rotate_file env.now env.gmtoff rotationAge s
  let s1 := if rot.1 then
      pgauditlogtofile_close_file
        (calculate_filename_state strftime dir pat rotationAge rot.2)
    else rot.2
  if pgauditlogtofile_is_open_file s1 then
    let w := pgauditlogtofile_write_audit ctx e exclude_nchars env.fwrite_rc s1
    (w.1.1, some w.1.2, w.2)
  else
    let o := pgauditlogtofile_open_file env.fopen_ok s1
    if o.1 then
      let w := pgauditlogtofile_write_audit ctx e exclude_nchars env.fwrite_rc o.2
      (w.1.1, some w.1.2, w.2)
    else
      (false, none, o.2)

/-- `pgauditlogtofile_emit_log` (src/logtofile.c:264-288): when the subsystem
is enabled and the message carries the audit prefix (7 characters stripped)
or one of the connection/disconnection prefixes (nothing stripped), the event
is captured: its default-log output is suppressed and the record is written;
if recording fails the output flag is restored so the event falls through to
the default logger.  Returns the possibly-updated event, the buffer handed to
fwrite when a write happened, and the updated worker state. -/
def pgauditlogtofile_emit_log (env : IoEnv) (shm_present : Bool)
    (guc : GucConfig) (strftime : String → Int → String) (ctx : PgContext)
    (e : ErrorData) (s : AuditState) :
    ErrorData × Option (List Char) × AuditState :=
  if pgauditlogtofile_is_enabled shm_present guc then
    let excl : Int :=
      if pg_strncasecmp_eq e.message PGAUDIT_PREFIX_LINE
          PGAUDIT_PREFIX_LINE_LENGTH then
        (PGAUDIT_PREFIX_LINE_LENGTH : Int)
      else if pgauditlogtofile_is_prefixed guc e.message then 0
      else -1
    let e1 := if 0 ≤ excl then { e with output_to_server := false } else e
    if 0 ≤ excl then
      let r := pgauditlogtofile_record_audit env strftime
        (guc.log_directory.getD "") (guc.log_filename.getD "")
        guc.log_rotation_age ctx e1 excl.toNat s
      if r.1 then (e1, r.2.1, r.2.2)
      else ({ e1 with output_to_server := true }, r.2.1, r.2.2)
    else (e1, none, s)
  else (e, none, s)

/-- The parameters a worker reads while maintaining its file session: the
configured directory, pattern and rotation age, and the strftime renderer. -/
structure SessionParams where
  strftime : String → Int → String
  dir : String
  pat : String
  rotationAge : Int

/-- The operations of the repository that touch the per-worker file-session
globals, at the granularity of the C functions.  `pgauditlogtofile_record_audit`
is a composition of these. -/
inductive SessionOp where
  | reqRotation
  | needsRotate (now gmtoff : Int)
  | calcFilename
  | closeFile
  | openFile (fopen_ok : Bool)
  | writeAudit

/-- Effect of one operation on the worker state (the write leaves the
session state untouched). -/
def sessionStep (p : SessionParams) (s : AuditState) : SessionOp → AuditState
  | .reqRotation => pgauditlogtofile_request_rotation s
  | .needsRotate now gmtoff =>
      (pgauditlogtofile_needs_rotate_file now gmtoff p.rotationAge s).2
  | .calcFilename => calculate_filename_state p.strftime p.dir p.pat
      p.rotationAge s
  | .closeFile => pgauditlogtofile_close_file s
  | .openFile ok => (pgauditlogtofile_open_file ok s).2
  | .writeAudit => s

/-- The worker state extended with a history variable: `openedTarget`
records the value the global `filename` had at the moment of the last
successful `fopen`. -/
structure GhostSession where
  st : AuditState
  openedTarget : Option String
deriving DecidableEq

/-- One operation on the extended state: the underlying state steps, and the
history variable is refreshed exactly when `fopen` succeeds. -/
def ghostStep (p : SessionParams) (g : GhostSession) (op : SessionOp) :
    GhostSession :=
  { st := sessionStep p g.st op
    openedTarget := match op with
      | .openFile true => some g.st.filename
      | _ => g.openedTarget }

/-- Runs a list of session operations. -/
def ghostRun (p : SessionParams) (g : GhostSession) :
    List SessionOp → GhostSession
  | [] => g
  | op :: ops => ghostRun p (ghostStep p g op) ops

/-- The file-session invariant: whenever the handle is open, the recorded
`filename_in_use` is exactly the target filename that was current at the
moment of the successful open. -/
def SessionInv (g : GhostSession) : Prop :=
  g.st.file_handler = true → g.openedTarget = some g.st.filename_in_use

/-- Global configuration of the shared force-rotation flag protocol of
src/logtofile.c, split at the atomic shared-memory accesses: `flag` is
`pgaudit_log_shm->force_rotation`, `lockHolder` the owner of
`pgaudit_log_shm->lock` (0 = the configuration-change notifier running
`pgauditlogtofile_request_rotation`, 1 and 2 = two workers running the
force branch of `pgauditlogtofile_needs_rotate_file`, lines 366-372, twice
each).  Program counters: notifier 0 = unlocked read of the flag, 1 =
LWLockAcquire, 2 = write true, 3 = LWLockRelease, 4 = done; worker 0/4 =
unlocked read of the flag for the first/second check, 1/5 = LWLockAcquire,
2/6 = write false, 3/7 = LWLockRelease and return true, 8 = done.
`w1trues`/`w2trues` count the checks of that worker that returned true. -/
structure FlagConfig where
  flag : Bool
  lockHolder : Option Nat
  npc : Nat
  w1pc : Nat
  w2pc : Nat
  w1trues : Nat
  w2trues : Nat
deriving DecidableEq

/-- One atomic step of `pgauditlogtofile_request_rotation`
(src/logtofile.c:132-142): unlocked read of the flag (skipping everything if
already set), acquire, set true, release. -/
def notifierStep (c : FlagConfig) : FlagConfig :=
  match c.npc with
  | 0 => if c.flag then { c with npc := 4 } else { c with npc := 1 }
  | 1 => if c.lockHolder = none then { c with lockHolder := some 0, npc := 2 }
         else c
  | 2 => { c with flag := true, npc := 3 }
  | 3 => { c with lockHolder := none, npc := 4 }
  | _ => c

/-- One atomic step of worker 1 running the force branch of
`pgauditlogtofile_needs_rotate_file` twice: unlocked read of the flag (a
false read ends the check with result false), acquire, clear, release and
return true. -/
def worker1Step (c : FlagConfig) : FlagConfig :=
  match c.w1pc with
  | 0 => if c.flag then { c with w1pc := 1 } else { c with w1pc := 4 }
  | 1 => if c.lockHolder = none then { c with lockHolder := some 1, w1pc := 2 }
         else c
  | 2 => { c with flag := false, w1pc := 3 }
  | 3 => { c with lockHolder := none, w1pc := 4, w1trues := c.w1trues + 1 }
  | 4 => if c.flag then { c with w1pc := 5 } else { c with w1pc := 8 }
  | 5 => if c.lockHolder = none then { c with lockHolder := some 1, w1pc := 6 }
         else c
  | 6 => { c with flag := false, w1pc := 7 }
  | 7 => { c with lockHolder := none, w1pc := 8, w1trues := c.w1trues + 1 }
  | _ => c

/-- One atomic step of worker 2, symmetric to worker 1. -/
def worker2Step (c : FlagConfig) : FlagConfig :=
  match c.w2pc with
  | 0 => if c.flag then { c with w2pc := 1 } else { c with w2pc := 4 }
  | 1 => if c.lockHolder = none then { c with lockHolder := some 2, w2pc := 2 }
         else c
  | 2 => { c with flag := false, w2pc := 3 }
  | 3 => { c with lockHolder := none, w2pc := 4, w2trues := c.w2trues + 1 }
  | 4 => if c.flag then { c with w2pc := 5 } else { c with w2pc := 8 }
  | 5 => if c.lockHolder = none then { c with lockHolder := some 2, w2pc := 6 }
         else c
  | 6 => { c with flag := false, w2pc := 7 }
  | 7 => { c with lockHolder := none, w2pc := 8, w2trues := c.w2trues + 1 }
  | _ => c

/-- A scheduler step: process 0 is the notifier, 1 and 2 the workers; other
ids do nothing. -/
def flagStep (c : FlagConfig) : Nat → FlagConfig
  | 0 => notifierStep c
  | 1 => worker1Step c
  | 2 => worker2Step c
  | _ => c

/-- Runs an interleaving schedule. -/
def flagRun (c : FlagConfig) : List Nat → FlagConfig
  | [] => c
  | p :: ps => flagRun (flagStep c p) ps

/-- The initial configuration: flag clear, lock free, one configuration
change pending at the notifier, both workers about to check. -/
def flagInit : FlagConfig :=
  { flag := false, lockHolder := none, npc := 0, w1pc := 0, w2pc := 0,
    w1trues := 0, w2trues := 0 }

/-- Inductive invariant of the flag protocol. -/
def FlagInv (c : FlagConfig) : Prop :=
  (c.npc = 2 ∨ c.npc = 3 → c.lockHolder = some 0) ∧
  (c.w1pc = 2 ∨ c.w1pc = 3 ∨ c.w1pc = 6 ∨ c.w1pc = 7 →
    c.lockHolder = some 1) ∧
  (c.w2pc = 2 ∨ c.w2pc = 3 ∨ c.w2pc = 6 ∨ c.w2pc = 7 →
    c.lockHolder = some 2) ∧
  (c.flag = true → c.npc = 3 ∨ c.npc = 4) ∧
  ((c.w1pc = 1 ∨ c.w1pc = 2 ∨ c.w1pc = 3 ∨ c.w1pc = 5 ∨ c.w1pc = 6 ∨
      c.w1pc = 7 ∨ 1 ≤ c.w1trues) → c.npc = 3 ∨ c.npc = 4) ∧
  ((c.w2pc = 1 ∨ c.w2pc = 2 ∨ c.w2pc = 3 ∨ c.w2pc = 5 ∨ c.w2pc = 6 ∨
      c.w2pc = 7 ∨ 1 ≤ c.w2trues) → c.npc = 3 ∨ c.npc = 4) ∧
  (c.w1pc = 3 ∨ c.w1pc = 7 → c.flag = false) ∧
  (c.w2pc = 3 ∨ c.w2pc = 7 → c.flag = false) ∧
  (1 ≤ c.w1trues → c.flag = false) ∧
  (1 ≤ c.w2trues → c.flag = false) ∧
  ¬((c.w1pc = 5 ∨ c.w1pc = 6 ∨ c.w1pc = 7) ∧ 1 ≤ c.w1trues) ∧
  ¬((c.w2pc = 5 ∨ c.w2pc = 6 ∨ c.w2pc = 7) ∧ 1 ≤ c.w2trues) ∧
  (c.w1pc ≤ 3 → c.w1trues = 0) ∧
  (c.w2pc ≤ 3 → c.w2trues = 0) ∧
  c.w1trues ≤ 1 ∧ c.w2trues ≤ 1

/-- Splits a byte list at every comma, the way a downstream consumer of the
audit file re-parses one record. -/
def splitOnComma : List Char → List (List Char)
  | [] => [[]]
  | c :: rest =>
    if c = ',' then [] :: splitOnComma rest
    else
      match splitOnComma rest with
      | [] => [[c]]
      | f :: fs => (c :: f) :: fs

/-- A concrete process context used by concrete evaluations. -/
def testCtx : PgContext :=
  { port := none
    formatted_log_time := "2026-10-11 10:15:00.000 UTC".data
    formatted_start_time := "2026-10-11 10:00:00 UTC".data
    log_my_pid := 41
    my_start_time := 1760176800
    log_line_number := 1
    ps_display := []
    vxid := none
    top_transaction_id := 0
    debug_query_string := none
    log_error_verbosity_verbose := false
    application_name := some "psql".data
    unpack_sql_state := fun _ => "00000".data }

/-- A concrete event whose message carries the audit prefix and no comma in
any field value. -/
def testEventPlain : ErrorData :=
  { output_to_server := true
    message := "AUDIT: SESSION".data
    sqlerrcode := 0
    detail := none
    detail_log := none
    hint := none
    internalquery := none
    internalpos := 0
    context := none
    hide_stmt := false
    cursorpos := 0
    funcname := none
    filename := none
    lineno := 0 }

/-- The same event with a comma inside the message text. -/
def testEventComma : ErrorData :=
  { testEventPlain with message := "AUDIT: foo,bar".data }

/-- A concrete enabled configuration. -/
def testGuc : GucConfig :=
  { log_directory := some "log"
    log_filename := some "audit-%Y%m%d_%H%M.log"
    log_rotation_age := 1440
    log_connections := false
    log_disconnections := false }


/-- The plain test event with the audit prefix in lowercase. -/
def testEventLower : ErrorData :=
  { testEventPlain with message := "audit: hello".data }

/-- A concrete worker state with an open, up-to-date session. -/
def testState : AuditState :=
  { force_rotation := false
    next_rotation_time := 200
    file_handler := true
    filename_in_use := "log/a"
    filename := "log/a" }

/-- A concrete worker state with no open session. -/
def testStateClosed : AuditState :=
  { testState with file_handler := false }

/-- An environment in which every operating-system call succeeds and fwrite
reports the full length of the plain test record. -/
def testEnvOk : IoEnv :=
  { now := 100
    gmtoff := 0
    fopen_ok := true
    fwrite_rc :=
      (pgauditlogtofile_create_audit_line testCtx testEventPlain 7).length }

/-- An environment in which fwrite reports a short write. -/
def testEnvShort : IoEnv := { testEnvOk with fwrite_rc := 0 }

/-- An environment in which fopen fails. -/
def testEnvNoOpen : IoEnv := { testEnvOk with fopen_ok := false }

/-- Concrete session parameters. -/
def testParams : SessionParams :=
  { strftime := fun p t => p ++ toString t
    dir := "log"
    pat := "audit-"
    rotationAge := 60 }


-- ## Theorems

/-- C2: for every current time, timezone offset and positive rotation
interval, the computed next rotation time is strictly greater than `now`, and
shifted into local wall-clock time it is an exact multiple of
`rotationAge * 60` seconds. -/
theorem calculate_next_rotation_time_future_aligned
    (now gmtoff rotationAge : Int) (hage : 0 < rotationAge) :
    now < pgauditlogtofile_calculate_next_rotation_time now gmtoff rotationAge ∧
    (rotationAge * SECS_PER_MINUTE) ∣
      (pgauditlogtofile_calculate_next_rotation_time now gmtoff rotationAge
        + gmtoff) := by
  have hb : (0:Int) < rotationAge * SECS_PER_MINUTE := by
    have : (0:Int) < 60 := by norm_num
    exact mul_pos hage this
  have hlt := Int.tmod_lt_of_pos (now + gmtoff) hb
  have hdiv := Int.tmod_add_tdiv (now + gmtoff) (rotationAge * SECS_PER_MINUTE)
  constructor
  · simp only [pgauditlogtofile_calculate_next_rotation_time]
    omega
  · refine ⟨Int.tdiv (now + gmtoff) (rotationAge * SECS_PER_MINUTE) + 1, ?_⟩
    simp only [pgauditlogtofile_calculate_next_rotation_time]
    rw [mul_add, mul_one]
    linarith [hdiv]

/-- Witness for C2 at a concrete input: `now` = 10:15 local (gmtoff 0),
interval 60 minutes. -/
theorem calculate_next_rotation_time_future_aligned_witness :
    (36900:Int) < pgauditlogtofile_calculate_next_rotation_time 36900 0 60 ∧
    ((60:Int) * SECS_PER_MINUTE) ∣
      (pgauditlogtofile_calculate_next_rotation_time 36900 0 60 + 0) :=
  calculate_next_rotation_time_future_aligned 36900 0 60 (by decide)

/-- C3 (code evidence): the GUC registration admits a rotation age of 0
minutes (its declared minimum), and with that value the modulo divisor
`rotinterval` inside `pgauditlogtofile_calculate_next_rotation_time` is 0, so
the function is reachable with a zero divisor (undefined behavior in C; in
this integer model `Int.tmod n 0 = n`, collapsing the result to `-gmtoff`,
which is not in the future). -/
theorem rotation_age_zero_reaches_zero_divisor :
    guc_pgaudit_log_rotation_age_def.minVal = 0 ∧
    gucIntAccepts guc_pgaudit_log_rotation_age_def 0 = true ∧
    (0:Int) * SECS_PER_MINUTE = 0 ∧
    pgauditlogtofile_calculate_next_rotation_time 1000 0 0 = 0 := by
  refine ⟨rfl, by decide, by decide, by decide⟩

/-- C4: the filename is always rendered at the window start
`next_rotation_time - rotationAge * 60`; when `next_rotation_time` comes from
the rotation clock, that window start is at most `now`, lies one full interval
before the next boundary, and is interval-aligned in local time — it is the
start of the window currently being written.  The final conjuncts check the
concrete scenario: interval 60 minutes, local time 10:15 (36900 s), next
rotation 11:00 (39600 s), filename window start 10:00 (36000 s). -/
theorem calculate_filename_current_window_start
    (strftime : String → Int → String) (dir pat : String)
    (now gmtoff rotationAge : Int) (hage : 0 < rotationAge)
    (hnow : 0 ≤ now + gmtoff) :
    pgauditlogtofile_calculate_filename strftime dir pat rotationAge
        (pgauditlogtofile_calculate_next_rotation_time now gmtoff rotationAge)
      = dir ++ "/" ++ strftime pat
          (pgauditlogtofile_calculate_next_rotation_time now gmtoff rotationAge
            - rotationAge * SECS_PER_MINUTE) ∧
    pgauditlogtofile_calculate_next_rotation_time now gmtoff rotationAge
        - rotationAge * SECS_PER_MINUTE ≤ now ∧
    (rotationAge * SECS_PER_MINUTE) ∣
      (pgauditlogtofile_calculate_next_rotation_time now gmtoff rotationAge
        - rotationAge * SECS_PER_MINUTE + gmtoff) ∧
    pgauditlogtofile_calculate_next_rotation_time 36900 0 60 = 39600 ∧
    pgauditlogtofile_calculate_next_rotation_time 36900 0 60
        - 60 * SECS_PER_MINUTE = 36000 := by
  have hb : (0:Int) < rotationAge * SECS_PER_MINUTE := by
    have : (0:Int) < 60 := by norm_num
    exact mul_pos hage this
  have hge := Int.tmod_nonneg (rotationAge * SECS_PER_MINUTE) hnow
  have hdiv := Int.tmod_add_tdiv (now + gmtoff) (rotationAge * SECS_PER_MINUTE)
  refine ⟨rfl, ?_, ?_, by decide, by decide⟩
  · simp only [pgauditlogtofile_calculate_next_rotation_time]
    omega
  · refine ⟨Int.tdiv (now + gmtoff) (rotationAge * SECS_PER_MINUTE), ?_⟩
    simp only [pgauditlogtofile_calculate_next_rotation_time]
    linarith [hdiv]

/-- Witness for C4 at the 10:15 scenario with a concrete renderer. -/
theorem calculate_filename_current_window_start_witness :
    pgauditlogtofile_calculate_filename (fun p t => p ++ toString t)
        "log" "audit-" 60
        (pgauditlogtofile_calculate_next_rotation_time 36900 0 60)
      = "log" ++ "/" ++ (fun (p : String) (t : Int) => p ++ toString t)
          "audit-"
          (pgauditlogtofile_calculate_next_rotation_time 36900 0 60
            - 60 * SECS_PER_MINUTE) ∧
    pgauditlogtofile_calculate_next_rotation_time 36900 0 60
        - 60 * SECS_PER_MINUTE ≤ 36900 ∧
    ((60:Int) * SECS_PER_MINUTE) ∣
      (pgauditlogtofile_calculate_next_rotation_time 36900 0 60
        - 60 * SECS_PER_MINUTE + 0) ∧
    pgauditlogtofile_calculate_next_rotation_time 36900 0 60 = 39600 ∧
    pgauditlogtofile_calculate_next_rotation_time 36900 0 60
        - 60 * SECS_PER_MINUTE = 36000 :=
  calculate_filename_current_window_start (fun p t => p ++ toString t)
    "log" "audit-" 36900 0 60 (by decide) (by decide)

/-- C1: on every write attempt the rotation decision tests, in order, the
shared force flag (clearing it), then whether the cached next rotation time
has been reached (recomputing it), then whether the derived target filename
differs from the recorded open filename; it rotates exactly when one of the
three holds, and otherwise `pgauditlogtofile_record_audit` reuses the open
session unchanged and goes straight to the write. -/
theorem needs_rotate_file_ordered (env : IoEnv) (rotationAge : Int)
    (strftime : String → Int → String) (dir pat : String)
    (ctx : PgContext) (e : ErrorData) (excl : Nat) (s : AuditState) :
    (pgauditlogtofile_needs_rotate_file env.now env.gmtoff rotationAge s).1
      = (s.force_rotation || decide (s.next_rotation_time ≤ env.now) ||
         decide (s.filename_in_use ≠ s.filename)) ∧
    (s.force_rotation = true →
      (pgauditlogtofile_needs_rotate_file env.now env.gmtoff rotationAge s).2
        = { s with force_rotation := false }) ∧
    (s.force_rotation = false → s.next_rotation_time ≤ env.now →
      (pgauditlogtofile_needs_rotate_file env.now env.gmtoff rotationAge s).2
        = { s with next_rotation_time :=
            (pgauditlogtofile_calculate_next_rotation_time env.now env.gmtoff
              rotationAge) }) ∧
    (s.force_rotation = false → env.now < s.next_rotation_time →
      (pgauditlogtofile_needs_rotate_file env.now env.gmtoff rotationAge s).2
        = s) ∧
    ((pgauditlogtofile_needs_rotate_file env.now env.gmtoff rotationAge s).1
        = false →
      s.file_handler = true →
      pgauditlogtofile_record_audit env strftime dir pat rotationAge ctx e
          excl s
        = ((env.fwrite_rc ==
              (pgauditlogtofile_create_audit_line ctx e excl).length),
           some (pgauditlogtofile_create_audit_line ctx e excl), s)) := by
  refine ⟨?_, ?_, ?_, ?_, ?_⟩
  · unfold pgauditlogtofile_needs_rotate_file
    by_cases hf : s.force_rotation <;>
      by_cases ht : s.next_rotation_time ≤ env.now <;>
      by_cases hn : s.filename_in_use = s.filename <;>
      simp [hf, ht, hn, not_le.mpr]
  · intro hf
    unfold pgauditlogtofile_needs_rotate_file
    simp [hf]
  · intro hf ht
    unfold pgauditlogtofile_needs_rotate_file
    simp [hf, ht]
  · intro hf ht
    unfold pgauditlogtofile_needs_rotate_file
    by_cases hn : s.filename_in_use = s.filename <;>
      simp [hf, ht, hn, not_le.mpr ht]
  · intro hdec hopen
    have hst : (pgauditlogtofile_needs_rotate_file env.now env.gmtoff
        rotationAge s).2 = s := by
      unfold pgauditlogtofile_needs_rotate_file at hdec ⊢
      split_ifs at hdec ⊢
      all_goals simp_all
    simp [pgauditlogtofile_record_audit, hdec, hst,
      pgauditlogtofile_is_open_file, hopen, pgauditlogtofile_write_audit]

/-- Witness for C1: a state with no rotation condition pending reuses the
open session. -/
theorem needs_rotate_file_ordered_witness :
    ((pgauditlogtofile_needs_rotate_file testEnvOk.now testEnvOk.gmtoff 60
        testState).2 = testState) ∧
    (pgauditlogtofile_record_audit testEnvOk (fun p _ => p) "log" "a" 60
        testCtx testEventPlain 7 testState
      = ((testEnvOk.fwrite_rc ==
            (pgauditlogtofile_create_audit_line testCtx testEventPlain
              7).length),
         some (pgauditlogtofile_create_audit_line testCtx testEventPlain 7),
         testState)) :=
  ⟨(needs_rotate_file_ordered testEnvOk 60 (fun p _ => p) "log" "a" testCtx
      testEventPlain 7 testState).2.2.2.1 rfl (by decide),
   (needs_rotate_file_ordered testEnvOk 60 (fun p _ => p) "log" "a" testCtx
      testEventPlain 7 testState).2.2.2.2 (by decide) rfl⟩

/-- Every single session operation preserves the file-session invariant. -/
theorem ghostStep_preserves_sessionInv (p : SessionParams) (g : GhostSession)
    (op : SessionOp) (h : SessionInv g) : SessionInv (ghostStep p g op) := by
  unfold SessionInv at h ⊢
  cases op with
  | reqRotation =>
      simp only [ghostStep, sessionStep]
      unfold pgauditlogtofile_request_rotation
      split_ifs <;> exact h
  | needsRotate now gmtoff =>
      simp only [ghostStep, sessionStep]
      unfold pgauditlogtofile_needs_rotate_file
      split_ifs <;> exact h
  | calcFilename =>
      simp only [ghostStep, sessionStep]
      unfold calculate_filename_state
      exact h
  | closeFile =>
      simp only [ghostStep, sessionStep]
      unfold pgauditlogtofile_close_file
      split_ifs <;> simp_all
  | openFile ok =>
      cases ok <;> simp only [ghostStep, sessionStep] <;>
        unfold pgauditlogtofile_open_file <;> simp_all
  | writeAudit => exact h

/-- Any sequence of session operations preserves the file-session
invariant. -/
theorem ghostRun_preserves_sessionInv (p : SessionParams)
    (ops : List SessionOp) :
    ∀ g : GhostSession, SessionInv g → SessionInv (ghostRun p g ops) := by
  induction ops with
  | nil => intro g h; exact h
  | cons op ops ih =>
      intro g h
      exact ih (ghostStep p g op) (ghostStep_preserves_sessionInv p g op h)

/-- C5: along every sequence of session operations, whenever the handle is
open, `filename_in_use` is the target filename recorded at the moment of the
successful open; an open failure and a close leave `filename_in_use`
untouched; and in the steady state (no force flag, rotation time not
reached) the rotation decision is exactly the string inequality between
`filename_in_use` and the freshly derived `filename` — the model consults no
filesystem. -/
theorem file_session_invariant (p : SessionParams) (g : GhostSession)
    (ops : List SessionOp) (h : SessionInv g) :
    SessionInv (ghostRun p g ops) ∧
    (∀ s : AuditState,
      (pgauditlogtofile_open_file false s).2.filename_in_use
        = s.filename_in_use) ∧
    (∀ s : AuditState,
      (pgauditlogtofile_close_file s).filename_in_use
        = s.filename_in_use) ∧
    (∀ now gmtoff age : Int, ∀ s : AuditState, s.force_rotation = false →
      now < s.next_rotation_time →
      (pgauditlogtofile_needs_rotate_file now gmtoff age s).1
        = decide ¬(s.filename_in_use = s.filename)) := by
  refine ⟨ghostRun_preserves_sessionInv p ops g h, ?_, ?_, ?_⟩
  · intro s
    simp [pgauditlogtofile_open_file]
  · intro s
    unfold pgauditlogtofile_close_file
    split_ifs <;> rfl
  · intro now gmtoff age s hf ht
    unfold pgauditlogtofile_needs_rotate_file
    simp [hf, not_le.mpr ht]
    split_ifs <;> simp_all

/-- Witness for C5 on a concrete trace: rotation check, close, recompute,
reopen, write. -/
theorem file_session_invariant_witness :
    SessionInv (ghostRun testParams
      { st := testState, openedTarget := some "log/a" }
      [SessionOp.needsRotate 100 0, SessionOp.calcFilename,
       SessionOp.closeFile, SessionOp.openFile true,
       SessionOp.writeAudit]) ∧
    (pgauditlogtofile_open_file false testState).2.filename_in_use
      = testState.filename_in_use ∧
    (pgauditlogtofile_needs_rotate_file 100 0 60 testState).1
      = decide ¬(testState.filename_in_use = testState.filename) := by
  have h := file_session_invariant testParams
    { st := testState, openedTarget := some "log/a" }
    [SessionOp.needsRotate 100 0, SessionOp.calcFilename,
     SessionOp.closeFile, SessionOp.openFile true, SessionOp.writeAudit]
    (fun _ => rfl)
  exact ⟨h.1, h.2.1 testState, h.2.2.2 100 0 60 testState rfl (by decide)⟩


set_option maxHeartbeats 1000000 in
/-- Each atomic step of the notifier and of the two workers preserves the
flag-protocol invariant. -/
theorem flagStep_preserves_inv (c : FlagConfig) (p : Nat) (h : FlagInv c) :
    FlagInv (flagStep c p) := by
  obtain ⟨f, lk, npc, w1, w2, t1, t2⟩ := c
  rcases p with _ | _ | _ | p
  · rcases npc with _ | _ | _ | _ | npc <;> cases f <;>
      rcases lk with _ | u <;>
      simp_all [flagStep, notifierStep, FlagInv] <;> omega
  · rcases w1 with _ | _ | _ | _ | _ | _ | _ | _ | w1 <;> cases f <;>
      rcases lk with _ | u <;>
      simp_all [flagStep, worker1Step, FlagInv] <;> omega
  · rcases w2 with _ | _ | _ | _ | _ | _ | _ | _ | w2 <;> cases f <;>
      rcases lk with _ | u <;>
      simp_all [flagStep, worker2Step, FlagInv] <;> omega
  · exact h

/-- The flag-protocol invariant holds along every schedule. -/
theorem flagRun_inv (sched : List Nat) :
    ∀ c : FlagConfig, FlagInv c → FlagInv (flagRun c sched) := by
  induction sched with
  | nil => intro c h; exact h
  | cons p ps ih =>
      intro c h
      exact ih (flagStep c p) (flagStep_preserves_inv c p h)

/-- The initial configuration satisfies the invariant. -/
theorem flagInit_inv : FlagInv flagInit := by
  unfold FlagInv flagInit
  simp

set_option maxHeartbeats 2000000 in
/-- C6 (amended): along every interleaving of one configuration-change
notifier and two workers each checking twice, (i)/(ii) a single worker never
observes the flag true twice for the one configuration change, (iii) the only
step that sets the flag true is a step of the notifier taken while it holds
the lock, and (iv) any step that clears a set flag is taken by a worker that
holds the lock.  (The observation itself is the unlocked read at the top of
`pgauditlogtofile_needs_rotate_file`; it is not under the lock.) -/
theorem force_rotation_flag_protocol (sched : List Nat) :
    (flagRun flagInit sched).w1trues ≤ 1 ∧
    (flagRun flagInit sched).w2trues ≤ 1 ∧
    (∀ p : Nat, (flagStep (flagRun flagInit sched) p).flag = true →
      (flagRun flagInit sched).flag = false →
      p = 0 ∧ (flagRun flagInit sched).lockHolder = some 0) ∧
    (∀ p : Nat, (flagStep (flagRun flagInit sched) p).flag = false →
      (flagRun flagInit sched).flag = true →
      (flagRun flagInit sched).lockHolder = some p ∧ 1 ≤ p) := by
  have h := flagRun_inv sched flagInit flagInit_inv
  revert h
  generalize flagRun flagInit sched = c
  obtain ⟨f, lk, npc, w1, w2, t1, t2⟩ := c
  intro h
  obtain ⟨h1, h2, h3, h4, h5, h6, h7, h8, h9, h10, h11, h12, h13, h14,
    h15, h16⟩ := h
  refine ⟨h15, h16, ?_, ?_⟩
  · intro p hset hf
    replace hf : f = false := hf
    subst hf
    rcases p with _ | _ | _ | p
    · refine ⟨rfl, ?_⟩
      rcases npc with _ | _ | _ | _ | npc <;> rcases lk with _ | u <;>
        simp_all [flagStep, notifierStep]
    · exfalso
      rcases w1 with _ | _ | _ | _ | _ | _ | _ | _ | w1 <;>
        rcases lk with _ | u <;> simp_all [flagStep, worker1Step]
    · exfalso
      rcases w2 with _ | _ | _ | _ | _ | _ | _ | _ | w2 <;>
        rcases lk with _ | u <;> simp_all [flagStep, worker2Step]
    · exact absurd hset (by simp [flagStep])
  · intro p hclr hf
    replace hf : f = true := hf
    subst hf
    rcases p with _ | _ | _ | p
    · exfalso
      rcases npc with _ | _ | _ | _ | npc <;> rcases lk with _ | u <;>
        simp_all [flagStep, notifierStep]
    · refine ⟨?_, by omega⟩
      rcases w1 with _ | _ | _ | _ | _ | _ | _ | _ | w1 <;>
        rcases lk with _ | u <;> simp_all [flagStep, worker1Step]
    · refine ⟨?_, by omega⟩
      rcases w2 with _ | _ | _ | _ | _ | _ | _ | _ | w2 <;>
        rcases lk with _ | u <;> simp_all [flagStep, worker2Step]
    · exact absurd hclr (by simp [flagStep])

/-- C6 (counterexample to the claim as stated): if the flag were only ever
observed-and-cleared atomically under the lock, one configuration change
could be consumed by at most one rotation check; in the code the observation
at the top of `pgauditlogtofile_needs_rotate_file` is an unlocked read, and
under this schedule both workers observe the single
`pgauditlogtofile_request_rotation` and both checks return true. -/
theorem force_rotation_double_consume :
    (flagRun flagInit [0, 0, 0, 0, 1, 2, 1, 1, 1, 2, 2, 2]).w1trues = 1 ∧
    (flagRun flagInit [0, 0, 0, 0, 1, 2, 1, 1, 1, 2, 2, 2]).w2trues = 1 := by
  decide

/-- Witness for C6 (amended) at two concrete schedules: after the notifier
has read the flag and acquired the lock, its next step is the flag-setting
one and it holds the lock; after the notifier finishes and worker 1 has observed and acquired,
the next worker-1 step clears the flag while worker 1 holds the lock. -/
theorem force_rotation_flag_protocol_witness :
    (flagRun flagInit [0, 0]).w1trues ≤ 1 ∧
    ((0:Nat) = 0 ∧ (flagRun flagInit [0, 0]).lockHolder = some 0) ∧
    ((flagRun flagInit [0, 0, 0, 0, 1, 1]).lockHolder = some 1 ∧ 1 ≤ 1) :=
  ⟨(force_rotation_flag_protocol [0, 0]).1,
   (force_rotation_flag_protocol [0, 0]).2.2.1 0 (by decide) (by decide),
   (force_rotation_flag_protocol [0, 0, 0, 0, 1, 1]).2.2.2 1 (by decide)
     (by decide)⟩

/-- C7: for a captured event the output flag is first cleared and the record
attempt runs on the modified event; the hook returns the event with the
output flag equal to the negation of the record result, so a failed record
re-enables the default logger.  A record attempt that wrote a buffer
succeeds exactly when fwrite reported the buffer length, and the file stays
open after a short write; a record attempt that wrote nothing failed because
fopen failed and left the handle closed.  The hook is a total function: no
error propagates to the event source. -/
theorem failed_write_falls_back (env : IoEnv) (shm : Bool) (guc : GucConfig)
    (strftime : String → Int → String) (ctx : PgContext) (e : ErrorData)
    (s : AuditState) (excl : Nat)
    (henabled : pgauditlogtofile_is_enabled shm guc = true)
    (hexcl : (if pg_strncasecmp_eq e.message PGAUDIT_PREFIX_LINE
        PGAUDIT_PREFIX_LINE_LENGTH = true then PGAUDIT_PREFIX_LINE_LENGTH
      else 0) = excl)
    (hcapt : pg_strncasecmp_eq e.message PGAUDIT_PREFIX_LINE
        PGAUDIT_PREFIX_LINE_LENGTH = true ∨
      pgauditlogtofile_is_prefixed guc e.message = true) :
    (pgauditlogtofile_emit_log env shm guc strftime ctx e s
      = ({ e with output_to_server :=
            !(pgauditlogtofile_record_audit env strftime
                (guc.log_directory.getD "") (guc.log_filename.getD "")
                guc.log_rotation_age ctx { e with output_to_server := false }
                excl s).1 },
         (pgauditlogtofile_record_audit env strftime
            (guc.log_directory.getD "") (guc.log_filename.getD "")
            guc.log_rotation_age ctx { e with output_to_server := false }
            excl s).2.1,
         (pgauditlogtofile_record_audit env strftime
            (guc.log_directory.getD "") (guc.log_filename.getD "")
            guc.log_rotation_age ctx { e with output_to_server := false }
            excl s).2.2)) ∧
    (∀ dir pat age e2 buf,
      (pgauditlogtofile_record_audit env strftime dir pat age ctx e2 excl
          s).2.1 = some buf →
      ((pgauditlogtofile_record_audit env strftime dir pat age ctx e2 excl
          s).1 = true ↔ env.fwrite_rc = buf.length) ∧
      (pgauditlogtofile_record_audit env strftime dir pat age ctx e2 excl
          s).2.2.file_handler = true) ∧
    (∀ dir pat age e2,
      (pgauditlogtofile_record_audit env strftime dir pat age ctx e2 excl
          s).2.1 = none →
      (pgauditlogtofile_record_audit env strftime dir pat age ctx e2 excl
          s).1 = false ∧
      env.fopen_ok = false ∧
      (pgauditlogtofile_record_audit env strftime dir pat age ctx e2 excl
          s).2.2.file_handler = false) := by
  refine ⟨?_, ?_, ?_⟩
  · by_cases hpg : pg_strncasecmp_eq e.message PGAUDIT_PREFIX_LINE
        PGAUDIT_PREFIX_LINE_LENGTH = true
    · rw [if_pos hpg] at hexcl
      subst hexcl
      simp only [pgauditlogtofile_emit_log, henabled, hpg, if_true]
      norm_num
      by_cases hr : (pgauditlogtofile_record_audit env strftime
          (guc.log_directory.getD "") (guc.log_filename.getD "")
          guc.log_rotation_age ctx { e with output_to_server := false }
          7 s).1 <;>
        simp [hr, PGAUDIT_PREFIX_LINE_LENGTH]
    · have hpfx : pgauditlogtofile_is_prefixed guc e.message = true := by
        rcases hcapt with hc | hc
        · exact absurd hc hpg
        · exact hc
      rw [if_neg hpg] at hexcl
      subst hexcl
      simp only [pgauditlogtofile_emit_log, henabled, hpg, hpfx, if_true,
        if_false]
      norm_num
      by_cases hr : (pgauditlogtofile_record_audit env strftime
          (guc.log_directory.getD "") (guc.log_filename.getD "")
          guc.log_rotation_age ctx { e with output_to_server := false }
          0 s).1 <;>
        simp [hr]
  · intro dir pat age e2 buf hbuf
    revert hbuf
    simp only [pgauditlogtofile_record_audit, pgauditlogtofile_write_audit,
      pgauditlogtofile_is_open_file, pgauditlogtofile_open_file]
    split_ifs with h1 h2 h3 <;> intro hbuf <;>
      simp_all [pgauditlogtofile_close_file, beq_iff_eq]
  · intro dir pat age e2
    simp only [pgauditlogtofile_record_audit, pgauditlogtofile_write_audit,
      pgauditlogtofile_is_open_file, pgauditlogtofile_open_file]
    split_ifs with h1 h2 h3 <;> intro hnone <;>
      simp_all [pgauditlogtofile_close_file]

/-- Witness for C7: with an open session and a short write reported by
fwrite, the record attempt fails exactly because the count differs from the
buffer length, and the file handle stays open. -/
theorem failed_write_falls_back_witness :
    ((pgauditlogtofile_record_audit testEnvShort (fun p _ => p) "log" "a" 60
        testCtx testEventPlain 7 testState).1 = true ↔
      testEnvShort.fwrite_rc =
        (pgauditlogtofile_create_audit_line testCtx testEventPlain
          7).length) ∧
    (pgauditlogtofile_record_audit testEnvShort (fun p _ => p) "log" "a" 60
        testCtx testEventPlain 7 testState).2.2.file_handler = true :=
  (failed_write_falls_back testEnvShort true testGuc (fun p _ => p) testCtx
      testEventPlain testState 7 (by decide) (by decide)
      (Or.inl (by decide))).2.1
    "log" "a" 60 testEventPlain
    (pgauditlogtofile_create_audit_line testCtx testEventPlain 7) (by decide)

/-- The comma split of a byte list is never the empty list of fields. -/
theorem splitOnComma_ne_nil (l : List Char) : splitOnComma l ≠ [] := by
  induction l with
  | nil => simp [splitOnComma]
  | cons c rest ih =>
      unfold splitOnComma
      split_ifs
      · simp
      · cases h : splitOnComma rest with
        | nil => exact absurd h ih
        | cons f fs => simp

/-- The comma split yields one more field than there are commas. -/
theorem splitOnComma_length (l : List Char) :
    (splitOnComma l).length = l.count ',' + 1 := by
  induction l with
  | nil => simp [splitOnComma]
  | cons c rest ih =>
      by_cases hc : c = ','
      · subst hc
        simp [splitOnComma, List.count_cons, ih]
      · cases h : splitOnComma rest with
        | nil => exact absurd h (splitOnComma_ne_nil rest)
        | cons f fs =>
            rw [h] at ih
            have hsplit : splitOnComma (c :: rest) = (c :: f) :: fs := by
              unfold splitOnComma
              rw [if_neg hc, h]
            have hcount : (c :: rest).count ',' = rest.count ',' := by
              simp [List.count_cons, hc]
            rw [hsplit, hcount]
            simp only [List.length_cons] at ih ⊢
            omega

/-- Joining comma-free fields with the delimiter puts exactly one comma
between consecutive fields. -/
theorem joinComma_count (fs : List (List Char)) (hne : fs ≠ [])
    (h : ∀ f ∈ fs, (',' : Char) ∉ f) :
    (joinComma fs).count ',' + 1 = fs.length := by
  induction fs with
  | nil => exact absurd rfl hne
  | cons f rest ih =>
      cases rest with
      | nil =>
          simp [joinComma, List.count_eq_zero.mpr (h f (by simp))]
      | cons g gs =>
          have hrest := ih (by simp)
            (fun x hx => h x (List.mem_cons_of_mem f hx))
          simp only [joinComma, List.count_append, List.count_cons]
          rw [List.count_eq_zero.mpr (h f (by simp))]
          simp at hrest ⊢
          omega

/-- C8 (amended): the formatter always appends the same fixed sequence of 21
delimiter commas and a terminating newline, one comma after each of the
first 21 field positions, rendering absent values as empty positions; hence
for every event whose rendered field values contain no comma, re-splitting
the produced line on the delimiter yields exactly 22 fields. -/
theorem audit_line_field_count (ctx : PgContext) (e : ErrorData)
    (excl : Nat)
    (h : ∀ f ∈ auditLineFields ctx e excl, (',' : Char) ∉ f) :
    (splitOnComma (pgauditlogtofile_create_audit_line ctx e excl)).length
      = 22 := by
  have h1 := joinComma_count (auditLineFields ctx e excl)
    (by simp [auditLineFields]) h
  have h2 := splitOnComma_length
    (pgauditlogtofile_create_audit_line ctx e excl)
  have h3 : (auditLineFields ctx e excl).length = 22 := by
    simp [auditLineFields]
  rw [h3] at h1
  unfold pgauditlogtofile_create_audit_line at h2 ⊢
  rw [List.count_append] at h2
  simp only [List.count_cons, List.count_nil] at h2
  rw [h2]
  have hnl : (if ('\n' == ',') = true then 1 else 0) = 0 := by decide
  rw [hnl]
  omega

/-- C8 (counterexample to the claim as stated): a message field containing
the unescaped delimiter changes the field count of the re-split line: the
same context yields 22 fields for a comma-free message and 23 for
`"AUDIT: foo,bar"`. -/
theorem audit_line_field_count_cex :
    (splitOnComma (pgauditlogtofile_create_audit_line testCtx testEventPlain
        7)).length = 22 ∧
    (splitOnComma (pgauditlogtofile_create_audit_line testCtx testEventComma
        7)).length = 23 := by
  decide

/-- Witness for C8 (amended) on the concrete comma-free event. -/
theorem audit_line_field_count_witness :
    (splitOnComma (pgauditlogtofile_create_audit_line testCtx testEventPlain
        7)).length = 22 :=
  audit_line_field_count testCtx testEventPlain 7 (by decide)

/-- C9: when the log directory or the log filename is NULL or empty, the
subsystem is inert: the hook returns the event exactly as it arrived (output
flag and message untouched), writes nothing, and leaves the whole worker
state unchanged — no rotation check, no open, no write. -/
theorem disabled_leaves_event_untouched (env : IoEnv) (shm : Bool)
    (guc : GucConfig) (strftime : String → Int → String) (ctx : PgContext)
    (e : ErrorData) (s : AuditState)
    (h : guc.log_directory = none ∨ guc.log_directory = some "" ∨
      guc.log_filename = none ∨ guc.log_filename = some "") :
    pgauditlogtofile_emit_log env shm guc strftime ctx e s = (e, none, s) := by
  have hen : pgauditlogtofile_is_enabled shm guc = false := by
    unfold pgauditlogtofile_is_enabled
    rcases h with h | h | h | h <;> rw [h] <;>
      rcases hd : guc.log_directory with _ | d <;>
      rcases hf : guc.log_filename with _ | f <;>
      simp_all
  unfold pgauditlogtofile_emit_log
  rw [hen]
  simp

/-- Witness for C9 with an empty directory setting. -/
theorem disabled_leaves_event_untouched_witness :
    pgauditlogtofile_emit_log testEnvOk true
      { testGuc with log_directory := some "" } (fun p _ => p) testCtx
      testEventPlain testState = (testEventPlain, none, testState) :=
  disabled_leaves_event_untouched testEnvOk true
    { testGuc with log_directory := some "" } (fun p _ => p) testCtx
    testEventPlain testState (Or.inr (Or.inl rfl))

/-- C10: the audit-prefix compare is `pg_strncasecmp`, i.e. case-insensitive
on the first 7 bytes; a matching event is captured: the hook suppresses its
default-log output (restoring it only if the record attempt fails) and runs
the record attempt with exclude count 7, so the formatted record carries the
message with exactly its first 7 characters stripped — formatting with
exclude 7 equals formatting the already-stripped message from position 0. -/
theorem audit_prefix_case_insensitive (env : IoEnv) (shm : Bool)
    (guc : GucConfig) (strftime : String → Int → String) (ctx : PgContext)
    (e : ErrorData) (s : AuditState)
    (henabled : pgauditlogtofile_is_enabled shm guc = true)
    (hpfx : pg_strncasecmp_eq e.message PGAUDIT_PREFIX_LINE
      PGAUDIT_PREFIX_LINE_LENGTH = true) :
    (pgauditlogtofile_emit_log env shm guc strftime ctx e s
      = ({ e with output_to_server :=
            !(pgauditlogtofile_record_audit env strftime
                (guc.log_directory.getD "") (guc.log_filename.getD "")
                guc.log_rotation_age ctx { e with output_to_server := false }
                7 s).1 },
         (pgauditlogtofile_record_audit env strftime
            (guc.log_directory.getD "") (guc.log_filename.getD "")
            guc.log_rotation_age ctx { e with output_to_server := false }
            7 s).2.1,
         (pgauditlogtofile_record_audit env strftime
            (guc.log_directory.getD "") (guc.log_filename.getD "")
            guc.log_rotation_age ctx { e with output_to_server := false }
            7 s).2.2)) ∧
    pgauditlogtofile_create_audit_line ctx
        { e with output_to_server := false } 7
      = pgauditlogtofile_create_audit_line ctx
          { e with output_to_server := false,
                   message := e.message.drop 7 } 0 ∧
    fieldMessage { e with output_to_server := false } 7
      = e.message.drop 7 := by
  refine ⟨?_, rfl, rfl⟩
  simp only [pgauditlogtofile_emit_log, henabled, hpfx, if_true]
  norm_num
  by_cases hr : (pgauditlogtofile_record_audit env strftime
      (guc.log_directory.getD "") (guc.log_filename.getD "")
      guc.log_rotation_age ctx { e with output_to_server := false }
      7 s).1 <;>
    simp [hr, PGAUDIT_PREFIX_LINE_LENGTH]

/-- Witness for C10 on a lowercase `"audit: hello"` message: the event is
captured, the write succeeds, the output flag stays suppressed and the
written buffer is the record of `"hello"`. -/
theorem audit_prefix_case_insensitive_witness :
    (pgauditlogtofile_emit_log
        { testEnvOk with fwrite_rc :=
            (pgauditlogtofile_create_audit_line testCtx
              { testEventLower with output_to_server := false } 7).length }
        true testGuc (fun p _ => p) testCtx testEventLower testState
      = ({ testEventLower with output_to_server :=
            !(pgauditlogtofile_record_audit
                { testEnvOk with fwrite_rc :=
                    (pgauditlogtofile_create_audit_line testCtx
                      { testEventLower with output_to_server := false }
                      7).length }
                (fun p _ => p) (testGuc.log_directory.getD "")
                (testGuc.log_filename.getD "") testGuc.log_rotation_age
                testCtx { testEventLower with output_to_server := false }
                7 testState).1 },
         (pgauditlogtofile_record_audit
            { testEnvOk with fwrite_rc :=
                (pgauditlogtofile_create_audit_line testCtx
                  { testEventLower with output_to_server := false }
                  7).length }
            (fun p _ => p) (testGuc.log_directory.getD "")
            (testGuc.log_filename.getD "") testGuc.log_rotation_age
            testCtx { testEventLower with output_to_server := false }
            7 testState).2.1,
         (pgauditlogtofile_record_audit
            { testEnvOk with fwrite_rc :=
                (pgauditlogtofile_create_audit_line testCtx
                  { testEventLower with output_to_server := false }
                  7).length }
            (fun p _ => p) (testGuc.log_directory.getD "")
            (testGuc.log_filename.getD "") testGuc.log_rotation_age
            testCtx { testEventLower with output_to_server := false }
            7 testState).2.2)) ∧
    fieldMessage { testEventLower with output_to_server := false } 7
      = testEventLower.message.drop 7 :=
  ⟨(audit_prefix_case_insensitive
      { testEnvOk with fwrite_rc :=
          (pgauditlogtofile_create_audit_line testCtx
            { testEventLower with output_to_server := false } 7).length }
      true testGuc (fun p _ => p) testCtx testEventLower testState
      (by decide) (by decide)).1,
   (audit_prefix_case_insensitive
      { testEnvOk with fwrite_rc :=
          (pgauditlogtofile_create_audit_line testCtx
            { testEventLower with output_to_server := false } 7).length }
      true testGuc (fun p _ => p) testCtx testEventLower testState
      (by decide) (by decide)).2.2⟩
